import Mathlib

/-!
Shallow embedding of the jigsaw shape-generation core of the `armaT`
repository, covering:

* `src/puzzleGenerator.tsx` — interactive in-app generator (`getEdgePath`,
  `buildPiecePath`, `generatePuzzle`), embedded in namespace `PuzzleGen`;
* `src/unnamed/part_001` — the offline asset baker (`getEdgePath`,
  `buildPiecePath` and the shape loop of `generateAssets`), embedded in
  namespace `Baker`.

Numbers are modelled over `ℚ` (JS decimal literals such as `0.4`, `0.25`,
`0.22`, `0.04`, `0.33`, `0.66` become the exact rationals they denote).
`Math.random()` draws are explicit parameters: a `Bool` for a
`Math.random() > 0.5` test, a `ℚ` for a raw draw.  SVG path strings are
embedded as lists of structured path commands carrying the same numeric
operands as the emitted string.
-/

/-- `EdgeType` from `src/puzzleGenerator.tsx` (and the record literal
`const EdgeType = { FLAT: 0, IN: 1, OUT: 2 }` of `src/unnamed/part_001`). -/
inductive EdgeType where
  | FLAT
  | IN
  | OUT
deriving DecidableEq, Repr

/-- The four-sided shape record `{ top, right, bottom, left }` used for each
cell by both implementations. -/
structure Shape where
  top : EdgeType
  right : EdgeType
  bottom : EdgeType
  left : EdgeType
deriving DecidableEq, Repr

/-- Two edge types are complementary when one is `IN` and the other `OUT`. -/
def Complementary (a b : EdgeType) : Prop :=
  (a = EdgeType.IN ∧ b = EdgeType.OUT) ∨ (a = EdgeType.OUT ∧ b = EdgeType.IN)

instance (a b : EdgeType) : Decidable (Complementary a b) := by
  unfold Complementary; infer_instance

namespace PuzzleGen

/-- Cell `(r, c)` of the `pieceShapes` grid built by the first loop of
`generatePuzzle` (`src/puzzleGenerator.tsx` lines 130–141).  The loop runs
row-major and each cell reads only the already-final `bottom` of the cell
above and `right` of the cell to its left, so the loop denotes this
recursion.  `rndR r c` (resp. `rndB r c`) is the value of the
`Math.random() > 0.5` test used for that cell's `right` (resp. `bottom`). -/
def pieceShape (rows cols : Nat) (rndR rndB : Nat → Nat → Bool) : Nat → Nat → Shape
  | r, c =>
    { top :=
        match r with
        | 0 => EdgeType.FLAT
        | r' + 1 =>
            if (pieceShape rows cols rndR rndB r' c).bottom = EdgeType.IN then EdgeType.OUT
            else EdgeType.IN
      left :=
        match c with
        | 0 => EdgeType.FLAT
        | c' + 1 =>
            if (pieceShape rows cols rndR rndB r c').right = EdgeType.IN then EdgeType.OUT
            else EdgeType.IN
      right :=
        if c = cols - 1 then EdgeType.FLAT
        else if rndR r c then EdgeType.IN else EdgeType.OUT
      bottom :=
        if r = rows - 1 then EdgeType.FLAT
        else if rndB r c then EdgeType.IN else EdgeType.OUT }
termination_by r c => (r, c)

theorem pieceShape_right (rows cols : Nat) (rndR rndB : Nat → Nat → Bool) (r c : Nat) :
    (pieceShape rows cols rndR rndB r c).right =
      if c = cols - 1 then EdgeType.FLAT
      else if rndR r c then EdgeType.IN else EdgeType.OUT := by
  rw [pieceShape.eq_def]

theorem pieceShape_bottom (rows cols : Nat) (rndR rndB : Nat → Nat → Bool) (r c : Nat) :
    (pieceShape rows cols rndR rndB r c).bottom =
      if r = rows - 1 then EdgeType.FLAT
      else if rndB r c then EdgeType.IN else EdgeType.OUT := by
  rw [pieceShape.eq_def]

theorem pieceShape_top_zero (rows cols : Nat) (rndR rndB : Nat → Nat → Bool) (c : Nat) :
    (pieceShape rows cols rndR rndB 0 c).top = EdgeType.FLAT := by
  rw [pieceShape.eq_def]

theorem pieceShape_top_succ (rows cols : Nat) (rndR rndB : Nat → Nat → Bool) (r c : Nat) :
    (pieceShape rows cols rndR rndB (r + 1) c).top =
      if (pieceShape rows cols rndR rndB r c).bottom = EdgeType.IN then EdgeType.OUT
      else EdgeType.IN := by
  rw [pieceShape.eq_def]

theorem pieceShape_left_zero (rows cols : Nat) (rndR rndB : Nat → Nat → Bool) (r : Nat) :
    (pieceShape rows cols rndR rndB r 0).left = EdgeType.FLAT := by
  rw [pieceShape.eq_def]

theorem pieceShape_left_succ (rows cols : Nat) (rndR rndB : Nat → Nat → Bool) (r c : Nat) :
    (pieceShape rows cols rndR rndB r (c + 1)).left =
      if (pieceShape rows cols rndR rndB r c).right = EdgeType.IN then EdgeType.OUT
      else EdgeType.IN := by
  rw [pieceShape.eq_def]

end PuzzleGen

namespace Baker

/-- Cell `(r, c)` of the `pieceShapes` grid built by the shape loop of
`generateAssets` (`src/unnamed/part_001` lines 144–183).  `patternChoice`
is the single `Math.random()` draw taken before the loop.  As in the
interactive generator, the loop is row-major and each cell reads only
already-final neighbour fields, so it denotes this recursion. -/
def pieceShape (rows cols : Nat) (patternChoice : ℚ) : Nat → Nat → Shape
  | r, c =>
    { top :=
        match r with
        | 0 => EdgeType.FLAT
        | r' + 1 =>
            if (pieceShape rows cols patternChoice r' c).bottom = EdgeType.IN then EdgeType.OUT
            else EdgeType.IN
      left :=
        match c with
        | 0 => EdgeType.FLAT
        | c' + 1 =>
            if (pieceShape rows cols patternChoice r c').right = EdgeType.IN then EdgeType.OUT
            else EdgeType.IN
      right :=
        if patternChoice < 33/100 then
          (if c = cols - 1 then EdgeType.FLAT else EdgeType.IN)
        else if patternChoice < 66/100 then
          (if c = cols - 1 then EdgeType.FLAT else EdgeType.OUT)
        else
          (if c = cols - 1 then EdgeType.FLAT
           else if c % 2 = 0 then EdgeType.OUT else EdgeType.IN)
      bottom :=
        if patternChoice < 33/100 then
          (if r = rows - 1 then EdgeType.FLAT else EdgeType.OUT)
        else if patternChoice < 66/100 then
          (if r = rows - 1 then EdgeType.FLAT else EdgeType.IN)
        else
          (if r = rows - 1 then EdgeType.FLAT
           else if r % 2 = 0 then EdgeType.IN else EdgeType.OUT) }
termination_by r c => (r, c)

theorem bakerShape_right (rows cols : Nat) (patternChoice : ℚ) (r c : Nat) :
    (pieceShape rows cols patternChoice r c).right =
      if patternChoice < 33/100 then
        (if c = cols - 1 then EdgeType.FLAT else EdgeType.IN)
      else if patternChoice < 66/100 then
        (if c = cols - 1 then EdgeType.FLAT else EdgeType.OUT)
      else
        (if c = cols - 1 then EdgeType.FLAT
         else if c % 2 = 0 then EdgeType.OUT else EdgeType.IN) := by
  rw [pieceShape.eq_def]

theorem bakerShape_bottom (rows cols : Nat) (patternChoice : ℚ) (r c : Nat) :
    (pieceShape rows cols patternChoice r c).bottom =
      if patternChoice < 33/100 then
        (if r = rows - 1 then EdgeType.FLAT else EdgeType.OUT)
      else if patternChoice < 66/100 then
        (if r = rows - 1 then EdgeType.FLAT else EdgeType.IN)
      else
        (if r = rows - 1 then EdgeType.FLAT
         else if r % 2 = 0 then EdgeType.IN else EdgeType.OUT) := by
  rw [pieceShape.eq_def]

theorem bakerShape_top_zero (rows cols : Nat) (patternChoice : ℚ) (c : Nat) :
    (pieceShape rows cols patternChoice 0 c).top = EdgeType.FLAT := by
  rw [pieceShape.eq_def]

theorem bakerShape_top_succ (rows cols : Nat) (patternChoice : ℚ) (r c : Nat) :
    (pieceShape rows cols patternChoice (r + 1) c).top =
      if (pieceShape rows cols patternChoice r c).bottom = EdgeType.IN then EdgeType.OUT
      else EdgeType.IN := by
  rw [pieceShape.eq_def]

theorem bakerShape_left_zero (rows cols : Nat) (patternChoice : ℚ) (r : Nat) :
    (pieceShape rows cols patternChoice r 0).left = EdgeType.FLAT := by
  rw [pieceShape.eq_def]

theorem bakerShape_left_succ (rows cols : Nat) (patternChoice : ℚ) (r c : Nat) :
    (pieceShape rows cols patternChoice r (c + 1)).left =
      if (pieceShape rows cols patternChoice r c).right = EdgeType.IN then EdgeType.OUT
      else EdgeType.IN := by
  rw [pieceShape.eq_def]

end Baker

namespace PuzzleGen

theorem right_flat_iff (rows cols : Nat) (rndR rndB : Nat → Nat → Bool) (r c : Nat) :
    (pieceShape rows cols rndR rndB r c).right = EdgeType.FLAT ↔ c = cols - 1 := by
  rw [pieceShape_right]
  by_cases h : c = cols - 1
  · simp [h]
  · cases hb : rndR r c <;> simp [h]

theorem bottom_flat_iff (rows cols : Nat) (rndR rndB : Nat → Nat → Bool) (r c : Nat) :
    (pieceShape rows cols rndR rndB r c).bottom = EdgeType.FLAT ↔ r = rows - 1 := by
  rw [pieceShape_bottom]
  by_cases h : r = rows - 1
  · simp [h]
  · cases hb : rndB r c <;> simp [h]

theorem top_flat_iff (rows cols : Nat) (rndR rndB : Nat → Nat → Bool) (r c : Nat) :
    (pieceShape rows cols rndR rndB r c).top = EdgeType.FLAT ↔ r = 0 := by
  cases r with
  | zero => simp [pieceShape_top_zero]
  | succ r' =>
    rw [pieceShape_top_succ]
    split <;> simp

theorem left_flat_iff (rows cols : Nat) (rndR rndB : Nat → Nat → Bool) (r c : Nat) :
    (pieceShape rows cols rndR rndB r c).left = EdgeType.FLAT ↔ c = 0 := by
  cases c with
  | zero => simp [pieceShape_left_zero]
  | succ c' =>
    rw [pieceShape_left_succ]
    split <;> simp

end PuzzleGen

namespace Baker

theorem bakerRight_flat_iff (rows cols : Nat) (patternChoice : ℚ) (r c : Nat) :
    (pieceShape rows cols patternChoice r c).right = EdgeType.FLAT ↔ c = cols - 1 := by
  rw [bakerShape_right]
  by_cases h1 : patternChoice < 33/100
  · by_cases h : c = cols - 1 <;> simp [h1, h]
  · by_cases h2 : patternChoice < 66/100
    · by_cases h : c = cols - 1 <;> simp [h1, h2, h]
    · by_cases h : c = cols - 1
      · simp [h1, h2, h]
      · by_cases hp : c % 2 = 0 <;> simp [h1, h2, h, hp]

theorem bakerBottom_flat_iff (rows cols : Nat) (patternChoice : ℚ) (r c : Nat) :
    (pieceShape rows cols patternChoice r c).bottom = EdgeType.FLAT ↔ r = rows - 1 := by
  rw [bakerShape_bottom]
  by_cases h1 : patternChoice < 33/100
  · by_cases h : r = rows - 1 <;> simp [h1, h]
  · by_cases h2 : patternChoice < 66/100
    · by_cases h : r = rows - 1 <;> simp [h1, h2, h]
    · by_cases h : r = rows - 1
      · simp [h1, h2, h]
      · by_cases hp : r % 2 = 0 <;> simp [h1, h2, h, hp]

theorem bakerTop_flat_iff (rows cols : Nat) (patternChoice : ℚ) (r c : Nat) :
    (pieceShape rows cols patternChoice r c).top = EdgeType.FLAT ↔ r = 0 := by
  cases r with
  | zero => simp [bakerShape_top_zero]
  | succ r' =>
    rw [bakerShape_top_succ]
    split <;> simp

theorem bakerLeft_flat_iff (rows cols : Nat) (patternChoice : ℚ) (r c : Nat) :
    (pieceShape rows cols patternChoice r c).left = EdgeType.FLAT ↔ c = 0 := by
  cases c with
  | zero => simp [bakerShape_left_zero]
  | succ c' =>
    rw [bakerShape_left_succ]
    split <;> simp

end Baker

/-- A non-flat edge is complementary to the value the next cell derives from
it (`x === IN ? OUT : IN`). -/
theorem comp_step (x : EdgeType) (hx : x ≠ EdgeType.FLAT) :
    Complementary x (if x = EdgeType.IN then EdgeType.OUT else EdgeType.IN) := by
  cases x with
  | FLAT => exact absurd rfl hx
  | IN => decide
  | OUT => decide

/-- C1: in every grid built by the edge-signature builder (both the
interactive generator's grid loop and the offline baker's grid loop, under
any random draws / pattern choice), horizontally adjacent cells have
complementary `right`/`left` edges and vertically adjacent cells have
complementary `bottom`/`top` edges. -/
theorem C1_edge_matching_invariant (rows cols r c : Nat) (rndR rndB : Nat → Nat → Bool)
    (patternChoice : ℚ) :
    (r < rows → c + 1 < cols →
      Complementary (PuzzleGen.pieceShape rows cols rndR rndB r c).right
          (PuzzleGen.pieceShape rows cols rndR rndB r (c + 1)).left
        ∧ Complementary (Baker.pieceShape rows cols patternChoice r c).right
          (Baker.pieceShape rows cols patternChoice r (c + 1)).left)
    ∧ (r + 1 < rows → c < cols →
      Complementary (PuzzleGen.pieceShape rows cols rndR rndB r c).bottom
          (PuzzleGen.pieceShape rows cols rndR rndB (r + 1) c).top
        ∧ Complementary (Baker.pieceShape rows cols patternChoice r c).bottom
          (Baker.pieceShape rows cols patternChoice (r + 1) c).top) := by
  constructor
  · intro _ hc
    constructor
    · rw [PuzzleGen.pieceShape_left_succ]
      exact comp_step _ (by rw [Ne, PuzzleGen.right_flat_iff]; omega)
    · rw [Baker.bakerShape_left_succ]
      exact comp_step _ (by rw [Ne, Baker.bakerRight_flat_iff]; omega)
  · intro hr _
    constructor
    · rw [PuzzleGen.pieceShape_top_succ]
      exact comp_step _ (by rw [Ne, PuzzleGen.bottom_flat_iff]; omega)
    · rw [Baker.bakerShape_top_succ]
      exact comp_step _ (by rw [Ne, Baker.bakerBottom_flat_iff]; omega)

/-- Witness for C1 on a concrete 2×2 grid at cell (0,0). -/
theorem C1_edge_matching_invariant_witness :
    (Complementary (PuzzleGen.pieceShape 2 2 (fun _ _ => true) (fun _ _ => true) 0 0).right
        (PuzzleGen.pieceShape 2 2 (fun _ _ => true) (fun _ _ => true) 0 1).left
      ∧ Complementary (Baker.pieceShape 2 2 0 0 0).right (Baker.pieceShape 2 2 0 0 1).left)
    ∧ (Complementary (PuzzleGen.pieceShape 2 2 (fun _ _ => true) (fun _ _ => true) 0 0).bottom
        (PuzzleGen.pieceShape 2 2 (fun _ _ => true) (fun _ _ => true) 1 0).top
      ∧ Complementary (Baker.pieceShape 2 2 0 0 0).bottom (Baker.pieceShape 2 2 0 1 0).top) :=
  ⟨(C1_edge_matching_invariant 2 2 0 0 (fun _ _ => true) (fun _ _ => true) 0).1
      (by norm_num) (by norm_num),
   (C1_edge_matching_invariant 2 2 0 0 (fun _ _ => true) (fun _ _ => true) 0).2
      (by norm_num) (by norm_num)⟩

/-- C2: in every grid built by the edge-signature builder (interactive
generator and offline baker alike), an edge is `FLAT` exactly when it lies
on the grid boundary: `top = FLAT ↔ r = 0`, `right = FLAT ↔ c = cols - 1`,
`bottom = FLAT ↔ r = rows - 1`, `left = FLAT ↔ c = 0`; in particular no
interior (shared) edge is flat. -/
theorem C2_boundary_flatness_invariant (rows cols r c : Nat) (rndR rndB : Nat → Nat → Bool)
    (patternChoice : ℚ) (_hr : r < rows) (_hc : c < cols) :
    (((PuzzleGen.pieceShape rows cols rndR rndB r c).top = EdgeType.FLAT ↔ r = 0)
      ∧ ((PuzzleGen.pieceShape rows cols rndR rndB r c).right = EdgeType.FLAT ↔ c = cols - 1)
      ∧ ((PuzzleGen.pieceShape rows cols rndR rndB r c).bottom = EdgeType.FLAT ↔ r = rows - 1)
      ∧ ((PuzzleGen.pieceShape rows cols rndR rndB r c).left = EdgeType.FLAT ↔ c = 0))
    ∧ (((Baker.pieceShape rows cols patternChoice r c).top = EdgeType.FLAT ↔ r = 0)
      ∧ ((Baker.pieceShape rows cols patternChoice r c).right = EdgeType.FLAT ↔ c = cols - 1)
      ∧ ((Baker.pieceShape rows cols patternChoice r c).bottom = EdgeType.FLAT ↔ r = rows - 1)
      ∧ ((Baker.pieceShape rows cols patternChoice r c).left = EdgeType.FLAT ↔ c = 0)) :=
  ⟨⟨PuzzleGen.top_flat_iff rows cols rndR rndB r c,
    PuzzleGen.right_flat_iff rows cols rndR rndB r c,
    PuzzleGen.bottom_flat_iff rows cols rndR rndB r c,
    PuzzleGen.left_flat_iff rows cols rndR rndB r c⟩,
   ⟨Baker.bakerTop_flat_iff rows cols patternChoice r c,
    Baker.bakerRight_flat_iff rows cols patternChoice r c,
    Baker.bakerBottom_flat_iff rows cols patternChoice r c,
    Baker.bakerLeft_flat_iff rows cols patternChoice r c⟩⟩

/-- Witness for C2 on a concrete 2×3 grid at cell (1,1). -/
theorem C2_boundary_flatness_invariant_witness :
    (((PuzzleGen.pieceShape 2 3 (fun _ _ => false) (fun _ _ => false) 1 1).top = EdgeType.FLAT ↔ (1 : Nat) = 0)
      ∧ ((PuzzleGen.pieceShape 2 3 (fun _ _ => false) (fun _ _ => false) 1 1).right = EdgeType.FLAT ↔ (1 : Nat) = 3 - 1)
      ∧ ((PuzzleGen.pieceShape 2 3 (fun _ _ => false) (fun _ _ => false) 1 1).bottom = EdgeType.FLAT ↔ (1 : Nat) = 2 - 1)
      ∧ ((PuzzleGen.pieceShape 2 3 (fun _ _ => false) (fun _ _ => false) 1 1).left = EdgeType.FLAT ↔ (1 : Nat) = 0))
    ∧ (((Baker.pieceShape 2 3 (1/2) 1 1).top = EdgeType.FLAT ↔ (1 : Nat) = 0)
      ∧ ((Baker.pieceShape 2 3 (1/2) 1 1).right = EdgeType.FLAT ↔ (1 : Nat) = 3 - 1)
      ∧ ((Baker.pieceShape 2 3 (1/2) 1 1).bottom = EdgeType.FLAT ↔ (1 : Nat) = 2 - 1)
      ∧ ((Baker.pieceShape 2 3 (1/2) 1 1).left = EdgeType.FLAT ↔ (1 : Nat) = 0)) :=
  C2_boundary_flatness_invariant 2 3 1 1 (fun _ _ => false) (fun _ _ => false) (1/2)
    (by norm_num) (by norm_num)

/-- Relative SVG path commands, as emitted (in string form) by the path
builders: `M x,y` (absolute move, only used as `M 0,0` at the path start),
`l dx,dy`, `c dx1,dy1 dx2,dy2 dx,dy`, `s dx2,dy2 dx,dy`, `Z`. -/
inductive PathCmd where
  | move (x y : ℚ)
  | line (dx dy : ℚ)
  | cubic (dx1 dy1 dx2 dy2 dx dy : ℚ)
  | smooth (dx2 dy2 dx dy : ℚ)
  | close
deriving DecidableEq, Repr

/-- The `direction` argument of both `getEdgePath` implementations. -/
inductive Direction where
  | right
  | down
  | left
  | up
deriving DecidableEq, Repr

/-- Endpoint displacement contributed by one command.  For `c`/`s` this is
the final `dx,dy` operand; `Z` returns to the subpath start and is modelled
as contributing no displacement (outline closure asserts the cumulative
displacement of the drawing commands is already zero when `Z` is reached);
the leading `M 0,0` is an absolute move to the origin, displacement `(0,0)`
from the origin. -/
def cmdDisp : PathCmd → ℚ × ℚ
  | .move x y => (x, y)
  | .line dx dy => (dx, dy)
  | .cubic _ _ _ _ dx dy => (dx, dy)
  | .smooth _ _ dx dy => (dx, dy)
  | .close => (0, 0)

/-- Cumulative displacement of a command list. -/
def pathDisp (cmds : List PathCmd) : ℚ × ℚ := (cmds.map cmdDisp).sum

theorem pathDisp_append (xs ys : List PathCmd) :
    pathDisp (xs ++ ys) = pathDisp xs + pathDisp ys := by
  simp [pathDisp]

namespace PuzzleGen

/-- `getEdgePath` of `src/puzzleGenerator.tsx` (lines 56–85), with the
emitted SVG string read back as structured commands.  `notchSize` is
`pieceSize * 0.4` and `sweep` is `pieceSize * 0.25`. -/
def getEdgePath (edgeType : EdgeType) (pieceSize : ℚ) (direction : Direction) : List PathCmd :=
  let notchSize := pieceSize * (4/10)
  let sweep := pieceSize * (25/100)
  match direction with
  | .right =>
    match edgeType with
    | .FLAT => [.line pieceSize 0]
    | .IN => [.cubic sweep 0 sweep (-notchSize) (pieceSize / 2) (-notchSize),
              .smooth 0 notchSize (pieceSize / 2) notchSize]
    | .OUT => [.cubic sweep 0 sweep notchSize (pieceSize / 2) notchSize,
               .smooth 0 (-notchSize) (pieceSize / 2) (-notchSize)]
  | .down =>
    match edgeType with
    | .FLAT => [.line 0 pieceSize]
    | .IN => [.cubic 0 sweep notchSize sweep notchSize (pieceSize / 2),
              .smooth (-notchSize) 0 (-notchSize) (pieceSize / 2)]
    | .OUT => [.cubic 0 sweep (-notchSize) sweep (-notchSize) (pieceSize / 2),
               .smooth notchSize 0 notchSize (pieceSize / 2)]
  | .left =>
    match edgeType with
    | .FLAT => [.line (-pieceSize) 0]
    | .IN => [.cubic (-sweep) 0 (-sweep) notchSize (-(pieceSize / 2)) notchSize,
              .smooth 0 (-notchSize) (-(pieceSize / 2)) (-notchSize)]
    | .OUT => [.cubic (-sweep) 0 (-sweep) (-notchSize) (-(pieceSize / 2)) (-notchSize),
               .smooth 0 notchSize (-(pieceSize / 2)) notchSize]
  | .up =>
    match edgeType with
    | .FLAT => [.line 0 (-pieceSize)]
    | .IN => [.cubic 0 (-sweep) (-notchSize) (-sweep) (-notchSize) (-(pieceSize / 2)),
              .smooth notchSize 0 notchSize (-(pieceSize / 2))]
    | .OUT => [.cubic 0 (-sweep) notchSize (-sweep) notchSize (-(pieceSize / 2)),
               .smooth (-notchSize) 0 (-notchSize) (-(pieceSize / 2))]

/-- `buildPiecePath` of `src/puzzleGenerator.tsx` (lines 93–108): `M 0,0`,
then the four edges (top drawn rightwards, right downwards, bottom
leftwards, left upwards), then `Z`. -/
def buildPiecePath (shape : Shape) (pieceSize : ℚ) : List PathCmd :=
  [PathCmd.move 0 0]
    ++ getEdgePath shape.top pieceSize .right
    ++ getEdgePath shape.right pieceSize .down
    ++ getEdgePath shape.bottom pieceSize .left
    ++ getEdgePath shape.left pieceSize .up
    ++ [PathCmd.close]

theorem edge_disp_right (t : EdgeType) (p : ℚ) :
    pathDisp (getEdgePath t p .right) = (p, 0) := by
  cases t <;> simp [getEdgePath, pathDisp, cmdDisp, Prod.ext_iff]

theorem edge_disp_down (t : EdgeType) (p : ℚ) :
    pathDisp (getEdgePath t p .down) = (0, p) := by
  cases t <;> simp [getEdgePath, pathDisp, cmdDisp, Prod.ext_iff]

theorem edge_disp_left (t : EdgeType) (p : ℚ) :
    pathDisp (getEdgePath t p .left) = (-p, 0) := by
  cases t <;> simp [getEdgePath, pathDisp, cmdDisp, Prod.ext_iff] <;> ring

theorem edge_disp_up (t : EdgeType) (p : ℚ) :
    pathDisp (getEdgePath t p .up) = (0, -p) := by
  cases t <;> simp [getEdgePath, pathDisp, cmdDisp, Prod.ext_iff] <;> ring

end PuzzleGen

namespace Baker

/-- `getEdgePath` of `src/unnamed/part_001` (lines 14–55).  `rnd` is the
`Math.random()` draw used in `notchHeight`; `notchWidth = pieceSize * 0.4`,
`notchHeight = pieceSize * (0.22 + (rnd - 0.5) * 0.04)`,
`lineSegment = (pieceSize - notchWidth) / 2`, and `notchDirection` is `1`
for `OUT`, `-1` otherwise. -/
def getEdgePath (edgeType : EdgeType) (pieceSize : ℚ) (direction : Direction) (rnd : ℚ) :
    List PathCmd :=
  if edgeType = EdgeType.FLAT then
    match direction with
    | .right => [.line pieceSize 0]
    | .down => [.line 0 pieceSize]
    | .left => [.line (-pieceSize) 0]
    | .up => [.line 0 (-pieceSize)]
  else
    let notchWidth := pieceSize * (4/10)
    let notchHeight := pieceSize * (22/100 + (rnd - 1/2) * (4/100))
    let lineSegment := (pieceSize - notchWidth) / 2
    let notchDirection : ℚ := if edgeType = EdgeType.OUT then 1 else -1
    match direction with
    | .right =>
      let nH := notchHeight * notchDirection
      [.line lineSegment 0, .cubic 0 nH notchWidth nH notchWidth 0, .line lineSegment 0]
    | .down =>
      let nH := notchHeight * notchDirection
      [.line 0 lineSegment, .cubic nH 0 nH notchWidth 0 notchWidth, .line 0 lineSegment]
    | .left =>
      let nH := notchHeight * (-notchDirection)
      [.line (-lineSegment) 0, .cubic 0 nH (-notchWidth) nH (-notchWidth) 0,
       .line (-lineSegment) 0]
    | .up =>
      let nH := notchHeight * (-notchDirection)
      [.line 0 (-lineSegment), .cubic nH 0 nH (-notchWidth) 0 (-notchWidth),
       .line 0 (-lineSegment)]

/-- `buildPiecePath` of `src/unnamed/part_001` (lines 57–66).  Each call to
`getEdgePath` takes its own independent `Math.random()` draw, passed here as
`jTop`, `jRight`, `jBottom`, `jLeft`. -/
def buildPiecePath (shape : Shape) (pieceSize : ℚ) (jTop jRight jBottom jLeft : ℚ) :
    List PathCmd :=
  [PathCmd.move 0 0]
    ++ getEdgePath shape.top pieceSize .right jTop
    ++ getEdgePath shape.right pieceSize .down jRight
    ++ getEdgePath shape.bottom pieceSize .left jBottom
    ++ getEdgePath shape.left pieceSize .up jLeft
    ++ [PathCmd.close]

theorem bakerEdge_disp_right (t : EdgeType) (p j : ℚ) :
    pathDisp (getEdgePath t p .right j) = (p, 0) := by
  cases t <;> simp [getEdgePath, pathDisp, cmdDisp, Prod.ext_iff] <;> ring

theorem bakerEdge_disp_down (t : EdgeType) (p j : ℚ) :
    pathDisp (getEdgePath t p .down j) = (0, p) := by
  cases t <;> simp [getEdgePath, pathDisp, cmdDisp, Prod.ext_iff] <;> ring

theorem bakerEdge_disp_left (t : EdgeType) (p j : ℚ) :
    pathDisp (getEdgePath t p .left j) = (-p, 0) := by
  cases t <;> simp [getEdgePath, pathDisp, cmdDisp, Prod.ext_iff] <;> ring

theorem bakerEdge_disp_up (t : EdgeType) (p j : ℚ) :
    pathDisp (getEdgePath t p .up j) = (0, -p) := by
  cases t <;> simp [getEdgePath, pathDisp, cmdDisp, Prod.ext_iff] <;> ring

end Baker

/-- C3: for every edge signature and positive piece size (and, for the
baker, any jitter draws), the contour emitted by `buildPiecePath` has
cumulative displacement exactly `(0, 0)` — the path returns to its starting
point.  Holds for the interactive generator's and the baker's builders. -/
theorem C3_outline_closure (shape : Shape) (p : ℚ) (_hp : 0 < p) (jT jR jB jL : ℚ) :
    pathDisp (PuzzleGen.buildPiecePath shape p) = (0, 0)
    ∧ pathDisp (Baker.buildPiecePath shape p jT jR jB jL) = (0, 0) := by
  refine ⟨?_, ?_⟩
  · rw [PuzzleGen.buildPiecePath]
    rw [pathDisp_append, pathDisp_append, pathDisp_append, pathDisp_append, pathDisp_append]
    rw [PuzzleGen.edge_disp_right, PuzzleGen.edge_disp_down, PuzzleGen.edge_disp_left,
      PuzzleGen.edge_disp_up]
    simp [pathDisp, cmdDisp]
  · rw [Baker.buildPiecePath]
    rw [pathDisp_append, pathDisp_append, pathDisp_append, pathDisp_append, pathDisp_append]
    rw [Baker.bakerEdge_disp_right, Baker.bakerEdge_disp_down, Baker.bakerEdge_disp_left, Baker.bakerEdge_disp_up]
    simp [pathDisp, cmdDisp]

/-- Witness for C3: a concrete signature at piece size 100. -/
theorem C3_outline_closure_witness :
    pathDisp (PuzzleGen.buildPiecePath ⟨EdgeType.FLAT, EdgeType.IN, EdgeType.OUT, EdgeType.FLAT⟩ 100) = (0, 0)
    ∧ pathDisp (Baker.buildPiecePath ⟨EdgeType.FLAT, EdgeType.IN, EdgeType.OUT, EdgeType.FLAT⟩ 100 0 (1/3) 1 (2/3)) = (0, 0) :=
  C3_outline_closure ⟨EdgeType.FLAT, EdgeType.IN, EdgeType.OUT, EdgeType.FLAT⟩ 100
    (by norm_num) 0 (1/3) 1 (2/3)

/-- Unit vector of a drawing direction (the edge's primary axis). -/
def dirVec : Direction → ℚ × ℚ
  | .right => (1, 0)
  | .down => (0, 1)
  | .left => (-1, 0)
  | .up => (0, -1)

/-- Footprint of one command along a direction's primary axis: the endpoint
displacement projected onto the direction vector. -/
def axisDisp (d : Direction) (cmd : PathCmd) : ℚ :=
  (dirVec d).1 * (cmdDisp cmd).1 + (dirVec d).2 * (cmdDisp cmd).2

def IsLineCmd (cmd : PathCmd) : Prop := ∃ dx dy, cmd = PathCmd.line dx dy

def IsCubicCmd (cmd : PathCmd) : Prop :=
  ∃ d1x d1y d2x d2y d3x d3y, cmd = PathCmd.cubic d1x d1y d2x d2y d3x d3y

def IsSmoothCmd (cmd : PathCmd) : Prop := ∃ d2x d2y d3x d3y, cmd = PathCmd.smooth d2x d2y d3x d3y

def IsCurveCmd (cmd : PathCmd) : Prop := IsCubicCmd cmd ∨ IsSmoothCmd cmd

/-- The per-edge structure asserted by C4, read literally: a straight line
command, then a curved tab made of a pair of curve commands, then a second
straight line command, the two straight footprints plus the tab footprint
summing to `pieceSize`, the tab footprint being `0.4 * pieceSize` and
centered on the edge midpoint. -/
def ClaimedTabStructure (d : Direction) (pieceSize : ℚ) (path : List PathCmd) : Prop :=
  ∃ l1 c1 c2 l2, path = [l1, c1, c2, l2]
    ∧ IsLineCmd l1 ∧ IsCurveCmd c1 ∧ IsCurveCmd c2 ∧ IsLineCmd l2
    ∧ axisDisp d l1 + (axisDisp d c1 + axisDisp d c2) + axisDisp d l2 = pieceSize
    ∧ axisDisp d c1 + axisDisp d c2 = pieceSize * (4/10)
    ∧ axisDisp d l1 + (axisDisp d c1 + axisDisp d c2) / 2 = pieceSize / 2

/-- A straight line command of footprint `a` along direction `d`, as both
implementations emit it. -/
def lineAlong : Direction → ℚ → PathCmd
  | .right, a => PathCmd.line a 0
  | .down, a => PathCmd.line 0 a
  | .left, a => PathCmd.line (-a) 0
  | .up, a => PathCmd.line 0 (-a)

/-- The baker's single-cubic tab of axis footprint `w` and (signed) lateral
control offset `h`, for each direction, exactly as emitted by
`Baker.getEdgePath`. -/
def tabCubic : Direction → ℚ → ℚ → PathCmd
  | .right, w, h => PathCmd.cubic 0 h w h w 0
  | .down, w, h => PathCmd.cubic h 0 h w 0 w
  | .left, w, h => PathCmd.cubic 0 h (-w) h (-w) 0
  | .up, w, h => PathCmd.cubic h 0 h (-w) 0 (-w)

/-- Counterexample to C4 as stated: at edge type `IN`, piece size 100,
direction `right` (baker jitter draw 1/2), neither implementation's
`getEdgePath` output has the claimed line / curve-pair / line shape — the
interactive generator emits two curve commands and no straight segment, the
baker emits a single cubic between its two straight segments. -/
theorem C4_per_edge_tab_counterexample :
    ¬ ClaimedTabStructure Direction.right 100 (PuzzleGen.getEdgePath EdgeType.IN 100 .right)
    ∧ ¬ ClaimedTabStructure Direction.right 100 (Baker.getEdgePath EdgeType.IN 100 .right (1/2)) := by
  constructor
  · intro hcl
    rw [ClaimedTabStructure] at hcl
    obtain ⟨l1, c1, c2, l2, heq, -⟩ := hcl
    have hlen := congrArg List.length heq
    simp [PuzzleGen.getEdgePath] at hlen
  · intro hcl
    rw [ClaimedTabStructure] at hcl
    obtain ⟨l1, c1, c2, l2, heq, -, -, -, hl2, -⟩ := hcl
    have hlen := congrArg List.length heq
    simp [Baker.getEdgePath] at hlen

/-- C4 (amended): for a non-flat edge type and positive piece size, the
BAKER's `getEdgePath` emits a straight segment, a single cubic tab, and a
second equal straight segment, the two straight footprints plus the tab's
axis footprint summing exactly to `pieceSize`, with the tab of width
`0.4 * pieceSize` centered on the edge midpoint; the interactive generator's
`getEdgePath` instead emits a cubic/smooth curve pair with no straight
segments, each command advancing `pieceSize / 2` along the primary axis (its
`0.4 * pieceSize` parameter is the lateral tab depth, not the width). -/
theorem C4_per_edge_tab_amended (t : EdgeType) (ht : t = EdgeType.IN ∨ t = EdgeType.OUT)
    (p : ℚ) (_hp : 0 < p) (d : Direction) (j : ℚ) :
    (∃ a w h, Baker.getEdgePath t p d j = [lineAlong d a, tabCubic d w h, lineAlong d a]
      ∧ axisDisp d (tabCubic d w h) = w
      ∧ w = p * (4/10) ∧ a + w + a = p ∧ a + w / 2 = p / 2)
    ∧ (∃ a1 a2 a3 a4 a5 a6 b1 b2 b3 b4,
        PuzzleGen.getEdgePath t p d
            = [PathCmd.cubic a1 a2 a3 a4 a5 a6, PathCmd.smooth b1 b2 b3 b4]
          ∧ axisDisp d (PathCmd.cubic a1 a2 a3 a4 a5 a6) = p / 2
          ∧ axisDisp d (PathCmd.smooth b1 b2 b3 b4) = p / 2) := by
  obtain rfl | rfl := ht <;> cases d <;>
    exact ⟨⟨_, _, _, rfl, by norm_num [axisDisp, dirVec, cmdDisp, tabCubic],
             by ring, by ring, by ring⟩,
           ⟨_, _, _, _, _, _, _, _, _, _, rfl,
             by norm_num [axisDisp, dirVec, cmdDisp],
             by norm_num [axisDisp, dirVec, cmdDisp]⟩⟩

/-- Witness for the amended C4 at `OUT`, piece size 10, direction `right`,
jitter draw 1/2. -/
theorem C4_per_edge_tab_amended_witness :
    (∃ a w h,
      Baker.getEdgePath EdgeType.OUT 10 .right (1/2)
          = [lineAlong .right a, tabCubic .right w h, lineAlong .right a]
        ∧ axisDisp .right (tabCubic .right w h) = w
        ∧ w = 10 * (4/10) ∧ a + w + a = 10 ∧ a + w / 2 = 10 / 2)
    ∧ (∃ a1 a2 a3 a4 a5 a6 b1 b2 b3 b4,
        PuzzleGen.getEdgePath EdgeType.OUT 10 .right
            = [PathCmd.cubic a1 a2 a3 a4 a5 a6, PathCmd.smooth b1 b2 b3 b4]
          ∧ axisDisp .right (PathCmd.cubic a1 a2 a3 a4 a5 a6) = 10 / 2
          ∧ axisDisp .right (PathCmd.smooth b1 b2 b3 b4) = 10 / 2) :=
  C4_per_edge_tab_amended EdgeType.OUT (Or.inr rfl) 10 (by norm_num) .right (1/2)

/-- The complement of an edge type (`IN` ↔ `OUT`). -/
def complementOf : EdgeType → EdgeType
  | .FLAT => .FLAT
  | .IN => .OUT
  | .OUT => .IN

/-- An absolute-coordinate path segment: a straight line or a cubic Bézier
with its two control points. -/
inductive Seg where
  | line (a b : ℚ × ℚ)
  | cubic (a c1 c2 b : ℚ × ℚ)
deriving DecidableEq, Repr

/-- Resolve a relative command list into absolute segments, starting at the
current point `P`.  `mirr` is the SVG smooth-command state: the reflection
of the previous curve's second control point about the current point (the
current point itself when the previous command was not a curve), used as the
first control point of an `s` command. -/
def segsGo : ℚ × ℚ → ℚ × ℚ → List PathCmd → List Seg
  | _, _, [] => []
  | _, _, PathCmd.move x y :: rest => segsGo (x, y) (x, y) rest
  | P, _, PathCmd.line dx dy :: rest =>
      Seg.line P (P + (dx, dy)) :: segsGo (P + (dx, dy)) (P + (dx, dy)) rest
  | P, _, PathCmd.cubic d1x d1y d2x d2y d3x d3y :: rest =>
      Seg.cubic P (P + (d1x, d1y)) (P + (d2x, d2y)) (P + (d3x, d3y))
        :: segsGo (P + (d3x, d3y)) (P + (d3x, d3y) + (P + (d3x, d3y) - (P + (d2x, d2y)))) rest
  | P, mirr, PathCmd.smooth d2x d2y d3x d3y :: rest =>
      Seg.cubic P mirr (P + (d2x, d2y)) (P + (d3x, d3y))
        :: segsGo (P + (d3x, d3y)) (P + (d3x, d3y) + (P + (d3x, d3y) - (P + (d2x, d2y)))) rest
  | P, mirr, PathCmd.close :: rest => segsGo P mirr rest

/-- Absolute segments of a path drawn from `start`. -/
def segsAt (start : ℚ × ℚ) (cmds : List PathCmd) : List Seg := segsGo start start cmds

/-- A segment traversed backwards (for a cubic, the control points swap). -/
def revSeg : Seg → Seg
  | .line a b => .line b a
  | .cubic a c1 c2 b => .cubic b c2 c1 a

/-- A segment list traversed backwards. -/
def revSegs (l : List Seg) : List Seg := (l.map revSeg).reverse

def translateSeg (v : ℚ × ℚ) : Seg → Seg
  | .line a b => .line (a + v) (b + v)
  | .cubic a c1 c2 b => .cubic (a + v) (c1 + v) (c2 + v) (b + v)

def segEnd : Seg → ℚ × ℚ
  | .line _ b => b
  | .cubic _ _ _ b => b

/-- The on-curve anchor points of a path drawn from `start`. -/
def anchors (start : ℚ × ℚ) (cmds : List PathCmd) : List (ℚ × ℚ) :=
  start :: (segsAt start cmds).map segEnd

/-- Counterexample to C5 as stated: with piece size 100, take a piece and
its right-hand neighbour across a shared vertical edge (`OUT` on the left
piece's right edge drawn downwards from `(100, 0)`, `IN` on the neighbour's
left edge drawn upwards from its local `(0, 100)`, neighbour translated by
`(100, 0)`).  Neither implementation makes the two contours coincide as
exact mirrors: the interactive generator's smooth-reflected control points
differ from the mirrored ones, and the baker's lateral tab heights differ
because each edge takes an independent jitter draw (here 0 versus 1, giving
heights 20 versus 24). -/
theorem C5_complementary_mirror_counterexample :
    segsAt ((100 : ℚ), 0) (PuzzleGen.getEdgePath EdgeType.OUT 100 .down)
        ≠ revSegs ((segsAt ((0 : ℚ), 100) (PuzzleGen.getEdgePath EdgeType.IN 100 .up)).map
            (translateSeg (100, 0)))
    ∧ segsAt ((100 : ℚ), 0) (Baker.getEdgePath EdgeType.OUT 100 .down 0)
        ≠ revSegs ((segsAt ((0 : ℚ), 100) (Baker.getEdgePath EdgeType.IN 100 .up 1)).map
            (translateSeg (100, 0))) := by
  have hne : (EdgeType.IN = EdgeType.OUT) = False := by decide
  constructor <;>
    norm_num [hne, segsAt, segsGo, PuzzleGen.getEdgePath, Baker.getEdgePath, revSegs, revSeg,
      translateSeg, Prod.ext_iff]

/-- C5 (amended): along a shared edge with complementary types, the two
contours agree at the level of on-curve anchor points for the interactive
generator (same tab width, same lateral magnitude, deviation on the same
side of the shared edge — i.e. opposite sign relative to each piece's own
interior), the neighbour's edge traversed backwards giving exactly the same
anchors; for the baker the edge is an exact mirror — control points
included — when the two edges' jitter draws are equal (with independent
draws the lateral magnitudes generally differ).  Stated for a piece and its
right-hand neighbour (shared vertical edge) and for a piece and the piece
below it (shared horizontal edge). -/
theorem C5_complementary_mirror_amended (t : EdgeType)
    (ht : t = EdgeType.IN ∨ t = EdgeType.OUT) (p j : ℚ) :
    (anchors (p, 0) (PuzzleGen.getEdgePath t p .down)
        = ((anchors (0, p) (PuzzleGen.getEdgePath (complementOf t) p .up)).map
            (· + (p, 0))).reverse)
    ∧ (anchors (p, p) (PuzzleGen.getEdgePath t p .left)
        = ((anchors (0, 0) (PuzzleGen.getEdgePath (complementOf t) p .right)).map
            (· + (0, p))).reverse)
    ∧ (segsAt (p, 0) (Baker.getEdgePath t p .down j)
        = revSegs ((segsAt (0, p) (Baker.getEdgePath (complementOf t) p .up j)).map
            (translateSeg (p, 0))))
    ∧ (segsAt (p, p) (Baker.getEdgePath t p .left j)
        = revSegs ((segsAt (0, 0) (Baker.getEdgePath (complementOf t) p .right j)).map
            (translateSeg (0, p)))) := by
  obtain rfl | rfl := ht <;>
    refine ⟨?_, ?_, ?_, ?_⟩ <;>
    simp [anchors, segsAt, segsGo, segEnd, PuzzleGen.getEdgePath, Baker.getEdgePath,
      complementOf, revSegs, revSeg, translateSeg, Prod.ext_iff] <;>
    ring_nf <;>
    norm_num

/-- Witness for the amended C5 at `OUT`, piece size 100, jitter draw 1/2. -/
theorem C5_complementary_mirror_amended_witness :
    (anchors (100, 0) (PuzzleGen.getEdgePath EdgeType.OUT 100 .down)
        = ((anchors (0, 100) (PuzzleGen.getEdgePath (complementOf EdgeType.OUT) 100 .up)).map
            (· + (100, 0))).reverse)
    ∧ (anchors (100, 100) (PuzzleGen.getEdgePath EdgeType.OUT 100 .left)
        = ((anchors (0, 0) (PuzzleGen.getEdgePath (complementOf EdgeType.OUT) 100 .right)).map
            (· + (0, 100))).reverse)
    ∧ (segsAt (100, 0) (Baker.getEdgePath EdgeType.OUT 100 .down (1/2))
        = revSegs ((segsAt (0, 100) (Baker.getEdgePath (complementOf EdgeType.OUT) 100 .up (1/2))).map
            (translateSeg (100, 0))))
    ∧ (segsAt (100, 100) (Baker.getEdgePath EdgeType.OUT 100 .left (1/2))
        = revSegs ((segsAt (0, 0) (Baker.getEdgePath (complementOf EdgeType.OUT) 100 .right (1/2))).map
            (translateSeg (0, 100)))) :=
  C5_complementary_mirror_amended EdgeType.OUT (Or.inr rfl) 100 (1/2)

namespace PuzzleGen

/-- `gridSize` field of `PuzzleConfig`.  Modelled over `ℤ` so that the
invalid non-positive dimensions of C9 are representable. -/
structure GridSize where
  rows : Int
  cols : Int
deriving DecidableEq, Repr

/-- The `image` record: URI plus native pixel dimensions. -/
structure ImageRef where
  uri : String
  width : ℚ
  height : ℚ
deriving DecidableEq, Repr

/-- `PuzzleConfig` of `src/puzzleGenerator.tsx` (lines 41–47). -/
structure PuzzleConfig where
  gridSize : GridSize
  image : ImageRef
  screenWidth : ℚ
  screenHeight : ℚ
  boardMargin : ℚ
deriving DecidableEq, Repr

/-- `Piece` of `src/puzzleGenerator.tsx` (lines 11–21), with the SVG string
`svgClipPath` carried as structured commands. -/
structure Piece where
  id : String
  shape : Shape
  svgClipPath : List PathCmd
  sourceX : ℚ
  sourceY : ℚ
  initialX : ℚ
  initialY : ℚ
deriving DecidableEq, Repr

/-- `Slot` of `src/puzzleGenerator.tsx` (lines 23–27). -/
structure Slot where
  id : String
  x : ℚ
  y : ℚ
deriving DecidableEq, Repr

/-- `PuzzleData` of `src/puzzleGenerator.tsx` (lines 30–37). -/
structure PuzzleData where
  pieces : List Piece
  slots : List Slot
  boardSize : ℚ × ℚ
  pieceSize : ℚ
  pieceSizeInImage : ℚ
  image : ImageRef
deriving DecidableEq, Repr

/-- `availableWidth = screenWidth - (boardMargin * 2)`. -/
def availableWidth (cfg : PuzzleConfig) : ℚ := cfg.screenWidth - cfg.boardMargin * 2

/-- `pieceSizeOnScreen = Math.floor(availableWidth / cols)`.  (In JS a
division by `cols = 0` yields `Infinity`; over `ℚ` division by zero yields
`0`.  No claim settled here depends on that degenerate value.) -/
def pieceSizeOnScreen (cfg : PuzzleConfig) : ℚ :=
  ((⌊availableWidth cfg / (cfg.gridSize.cols : ℚ)⌋ : ℤ) : ℚ)

/-- `pieceSizeInImage = Math.floor(image.width / cols)`. -/
def pieceSizeInImage (cfg : PuzzleConfig) : ℚ :=
  ((⌊cfg.image.width / (cfg.gridSize.cols : ℚ)⌋ : ℤ) : ℚ)

def boardWidth (cfg : PuzzleConfig) : ℚ := pieceSizeOnScreen cfg * (cfg.gridSize.cols : ℚ)

def boardHeight (cfg : PuzzleConfig) : ℚ := pieceSizeOnScreen cfg * (cfg.gridSize.rows : ℚ)

/-- The piece/slot identity string `` `r${r}c${c}` ``. -/
def mkId (r c : Nat) : String := "r" ++ toString r ++ "c" ++ toString c

/-- `spawnAreaY = boardMargin + boardHeight + 50`. -/
def spawnAreaY (cfg : PuzzleConfig) : ℚ := cfg.boardMargin + boardHeight cfg + 50

/-- The slot pushed for cell `(r, c)`:
`{ id, x: c * pieceSizeOnScreen, y: r * pieceSizeOnScreen }`. -/
def mkSlot (cfg : PuzzleConfig) (r c : Nat) : Slot :=
  { id := mkId r c
    x := (c : ℚ) * pieceSizeOnScreen cfg
    y := (r : ℚ) * pieceSizeOnScreen cfg }

/-- The piece pushed for cell `(r, c)` in the second loop of
`generatePuzzle` (lines 144–165).  `rndX r c` and `rndY r c` are the two
`Math.random()` draws for that piece's scatter position. -/
def mkPiece (cfg : PuzzleConfig) (rndX rndY : Nat → Nat → ℚ) (rndR rndB : Nat → Nat → Bool)
    (r c : Nat) : Piece :=
  { id := mkId r c
    shape := pieceShape cfg.gridSize.rows.toNat cfg.gridSize.cols.toNat rndR rndB r c
    svgClipPath :=
      buildPiecePath (pieceShape cfg.gridSize.rows.toNat cfg.gridSize.cols.toNat rndR rndB r c)
        (pieceSizeInImage cfg)
    sourceX := (c : ℚ) * pieceSizeInImage cfg
    sourceY := (r : ℚ) * pieceSizeInImage cfg
    initialX := rndX r c * (cfg.screenWidth - pieceSizeOnScreen cfg)
    initialY :=
      spawnAreaY cfg + rndY r c * (cfg.screenHeight - spawnAreaY cfg - pieceSizeOnScreen cfg) }

/-- Row-major double loop (`for r < R`, inner `for c < C`) pushing `f r c`.
A JS `for (let i = 0; i < n; i++)` runs zero times when `n ≤ 0`, hence the
`Int.toNat` at the call sites. -/
def rowMajor {α : Type} (R C : Nat) (f : Nat → Nat → α) : List α :=
  (List.range R).flatMap fun r => (List.range C).map (f r)

/-- The pieces list in generation (row-major) order, before the shuffle. -/
def rowMajorPieces (cfg : PuzzleConfig) (rndX rndY : Nat → Nat → ℚ)
    (rndR rndB : Nat → Nat → Bool) : List Piece :=
  rowMajor cfg.gridSize.rows.toNat cfg.gridSize.cols.toNat (mkPiece cfg rndX rndY rndR rndB)

/-- `generatePuzzle` of `src/puzzleGenerator.tsx` (lines 113–175).  The
final `pieces.sort(() => 0.5 - Math.random())` applies an engine-dependent
rearrangement of the array; it is modelled as an explicit function
parameter `shuffle`, about which claims state the permutation property as a
hypothesis. -/
def generatePuzzle (cfg : PuzzleConfig) (rndX rndY : Nat → Nat → ℚ)
    (rndR rndB : Nat → Nat → Bool) (shuffle : List Piece → List Piece) : PuzzleData :=
  { pieces := shuffle (rowMajorPieces cfg rndX rndY rndR rndB)
    slots := rowMajor cfg.gridSize.rows.toNat cfg.gridSize.cols.toNat (mkSlot cfg)
    boardSize := (boardWidth cfg, boardHeight cfg)
    pieceSize := pieceSizeOnScreen cfg
    pieceSizeInImage := pieceSizeInImage cfg
    image := cfg.image }

theorem rowMajor_length {α : Type} (R C : Nat) (f : Nat → Nat → α) :
    (rowMajor R C f).length = R * C := by
  induction R with
  | zero => simp [rowMajor]
  | succ R ih =>
    unfold rowMajor at ih ⊢
    rw [List.range_succ, List.flatMap_append, List.length_append, ih]
    simp [Nat.succ_mul]

theorem rowMajor_get {α : Type} (R C : Nat) (f : Nat → Nat → α) (r c : Nat)
    (hr : r < R) (hc : c < C) :
    (rowMajor R C f)[r * C + c]? = some (f r c) := by
  induction R with
  | zero => omega
  | succ R ih =>
    have hlen : ((List.range R).flatMap fun a => (List.range C).map (f a)).length = R * C :=
      rowMajor_length R C f
    unfold rowMajor at ih ⊢
    rw [List.range_succ, List.flatMap_append]
    by_cases h : r < R
    · rw [List.getElem?_append_left]
      · exact ih h
      · rw [hlen]
        calc r * C + c < r * C + C := Nat.add_lt_add_left hc _
          _ = (r + 1) * C := by ring
          _ ≤ R * C := Nat.mul_le_mul_right C h
    · have hrR : r = R := by omega
      subst hrR
      rw [List.getElem?_append_right (by rw [hlen]; omega)]
      rw [hlen]
      simp only [List.flatMap_cons, List.flatMap_nil, List.append_nil]
      have hidx : r * C + c - r * C = c := by omega
      rw [hidx, List.getElem?_map, List.getElem?_range hc]
      rfl

theorem rowMajor_map {α β : Type} (R C : Nat) (f : Nat → Nat → α) (g : α → β) :
    (rowMajor R C f).map g = rowMajor R C fun r c => g (f r c) := by
  simp [rowMajor, List.map_flatMap, List.map_map, Function.comp, Function.comp_def]

end PuzzleGen

namespace PuzzleGen

/-- A concrete configuration used by witnesses: 2×3 grid, 300×200 source
image, 320×640 viewport, margin 10. -/
def witnessConfig : PuzzleConfig :=
  { gridSize := { rows := 2, cols := 3 }
    image := { uri := "img", width := 300, height := 200 }
    screenWidth := 320
    screenHeight := 640
    boardMargin := 10 }

end PuzzleGen

/-- C6: for every accepted configuration and cell (r,c), the piece generated
for that cell has crop origin `(c * pieceSizeInImage, r * pieceSizeInImage)`
and the slot generated at the same row-major position carries the same id
and target `(c * pieceSizeOnScreen, r * pieceSizeOnScreen)` in board-local
coordinates; the output piece list is the shuffle of the row-major list. -/
theorem C6_coordinate_consistency (cfg : PuzzleGen.PuzzleConfig)
    (rndX rndY : Nat → Nat → ℚ) (rndR rndB : Nat → Nat → Bool)
    (shuffle : List PuzzleGen.Piece → List PuzzleGen.Piece) (r c : Nat)
    (hr : r < cfg.gridSize.rows.toNat) (hc : c < cfg.gridSize.cols.toNat) :
    (PuzzleGen.generatePuzzle cfg rndX rndY rndR rndB shuffle).pieces
        = shuffle (PuzzleGen.rowMajorPieces cfg rndX rndY rndR rndB)
    ∧ (PuzzleGen.rowMajorPieces cfg rndX rndY rndR rndB)[r * cfg.gridSize.cols.toNat + c]?
        = some (PuzzleGen.mkPiece cfg rndX rndY rndR rndB r c)
    ∧ (PuzzleGen.mkPiece cfg rndX rndY rndR rndB r c).sourceX
        = (c : ℚ) * PuzzleGen.pieceSizeInImage cfg
    ∧ (PuzzleGen.mkPiece cfg rndX rndY rndR rndB r c).sourceY
        = (r : ℚ) * PuzzleGen.pieceSizeInImage cfg
    ∧ (PuzzleGen.mkPiece cfg rndX rndY rndR rndB r c).id = PuzzleGen.mkId r c
    ∧ (PuzzleGen.generatePuzzle cfg rndX rndY rndR rndB shuffle).slots[r * cfg.gridSize.cols.toNat + c]?
        = some { id := PuzzleGen.mkId r c
                 x := (c : ℚ) * PuzzleGen.pieceSizeOnScreen cfg
                 y := (r : ℚ) * PuzzleGen.pieceSizeOnScreen cfg } :=
  ⟨rfl, PuzzleGen.rowMajor_get _ _ _ r c hr hc, rfl, rfl, rfl,
    PuzzleGen.rowMajor_get _ _ _ r c hr hc⟩

/-- Witness for C6 at the concrete witness configuration, cell (1,2). -/
theorem C6_coordinate_consistency_witness :
    (PuzzleGen.generatePuzzle PuzzleGen.witnessConfig (fun _ _ => 0) (fun _ _ => 0)
        (fun _ _ => true) (fun _ _ => true) id).pieces
        = id (PuzzleGen.rowMajorPieces PuzzleGen.witnessConfig (fun _ _ => 0) (fun _ _ => 0)
            (fun _ _ => true) (fun _ _ => true))
    ∧ (PuzzleGen.rowMajorPieces PuzzleGen.witnessConfig (fun _ _ => 0) (fun _ _ => 0)
        (fun _ _ => true) (fun _ _ => true))[1 * PuzzleGen.witnessConfig.gridSize.cols.toNat + 2]?
        = some (PuzzleGen.mkPiece PuzzleGen.witnessConfig (fun _ _ => 0) (fun _ _ => 0)
            (fun _ _ => true) (fun _ _ => true) 1 2)
    ∧ (PuzzleGen.mkPiece PuzzleGen.witnessConfig (fun _ _ => 0) (fun _ _ => 0)
        (fun _ _ => true) (fun _ _ => true) 1 2).sourceX
        = (2 : ℚ) * PuzzleGen.pieceSizeInImage PuzzleGen.witnessConfig
    ∧ (PuzzleGen.mkPiece PuzzleGen.witnessConfig (fun _ _ => 0) (fun _ _ => 0)
        (fun _ _ => true) (fun _ _ => true) 1 2).sourceY
        = (1 : ℚ) * PuzzleGen.pieceSizeInImage PuzzleGen.witnessConfig
    ∧ (PuzzleGen.mkPiece PuzzleGen.witnessConfig (fun _ _ => 0) (fun _ _ => 0)
        (fun _ _ => true) (fun _ _ => true) 1 2).id = PuzzleGen.mkId 1 2
    ∧ (PuzzleGen.generatePuzzle PuzzleGen.witnessConfig (fun _ _ => 0) (fun _ _ => 0)
        (fun _ _ => true) (fun _ _ => true) id).slots[1 * PuzzleGen.witnessConfig.gridSize.cols.toNat + 2]?
        = some { id := PuzzleGen.mkId 1 2
                 x := (2 : ℚ) * PuzzleGen.pieceSizeOnScreen PuzzleGen.witnessConfig
                 y := (1 : ℚ) * PuzzleGen.pieceSizeOnScreen PuzzleGen.witnessConfig } :=
  C6_coordinate_consistency PuzzleGen.witnessConfig (fun _ _ => 0) (fun _ _ => 0)
    (fun _ _ => true) (fun _ _ => true) id 1 2 (by decide) (by decide)

/-- C7: when the final rearrangement is a permutation (as an array `sort`
always is), the output has `rows * cols` pieces and slots, the multiset of
piece ids equals the multiset of slot ids, the piece list is a permutation
of the generated (row-major) pieces, and the slot list is exactly the
row-major slot list. -/
theorem C7_cardinality_and_id_bijection (cfg : PuzzleGen.PuzzleConfig)
    (rndX rndY : Nat → Nat → ℚ) (rndR rndB : Nat → Nat → Bool)
    (shuffle : List PuzzleGen.Piece → List PuzzleGen.Piece)
    (hshuffle : ∀ l, (shuffle l).Perm l) :
    (PuzzleGen.generatePuzzle cfg rndX rndY rndR rndB shuffle).pieces.length
        = cfg.gridSize.rows.toNat * cfg.gridSize.cols.toNat
    ∧ (PuzzleGen.generatePuzzle cfg rndX rndY rndR rndB shuffle).slots.length
        = cfg.gridSize.rows.toNat * cfg.gridSize.cols.toNat
    ∧ ((PuzzleGen.generatePuzzle cfg rndX rndY rndR rndB shuffle).pieces.map
        PuzzleGen.Piece.id).Perm
        ((PuzzleGen.generatePuzzle cfg rndX rndY rndR rndB shuffle).slots.map PuzzleGen.Slot.id)
    ∧ (PuzzleGen.generatePuzzle cfg rndX rndY rndR rndB shuffle).pieces.Perm
        (PuzzleGen.rowMajorPieces cfg rndX rndY rndR rndB)
    ∧ (PuzzleGen.generatePuzzle cfg rndX rndY rndR rndB shuffle).slots
        = PuzzleGen.rowMajor cfg.gridSize.rows.toNat cfg.gridSize.cols.toNat
            (PuzzleGen.mkSlot cfg) := by
  have hids : (PuzzleGen.rowMajorPieces cfg rndX rndY rndR rndB).map PuzzleGen.Piece.id
      = (PuzzleGen.rowMajor cfg.gridSize.rows.toNat cfg.gridSize.cols.toNat
          (PuzzleGen.mkSlot cfg)).map PuzzleGen.Slot.id := by
    unfold PuzzleGen.rowMajorPieces
    rw [PuzzleGen.rowMajor_map, PuzzleGen.rowMajor_map]
    rfl
  refine ⟨?_, ?_, ?_, hshuffle _, rfl⟩
  · show (shuffle (PuzzleGen.rowMajorPieces cfg rndX rndY rndR rndB)).length = _
    rw [(hshuffle _).length_eq]
    exact PuzzleGen.rowMajor_length _ _ _
  · exact PuzzleGen.rowMajor_length _ _ _
  · show ((shuffle (PuzzleGen.rowMajorPieces cfg rndX rndY rndR rndB)).map
        PuzzleGen.Piece.id).Perm _
    rw [show (PuzzleGen.generatePuzzle cfg rndX rndY rndR rndB shuffle).slots.map
        PuzzleGen.Slot.id
        = (PuzzleGen.rowMajorPieces cfg rndX rndY rndR rndB).map PuzzleGen.Piece.id
      from hids.symm]
    exact List.Perm.map _ (hshuffle _)

/-- Witness for C7 at the concrete witness configuration with the identity
shuffle. -/
theorem C7_cardinality_and_id_bijection_witness :
    (PuzzleGen.generatePuzzle PuzzleGen.witnessConfig (fun _ _ => 0) (fun _ _ => 0)
        (fun _ _ => true) (fun _ _ => true) id).pieces.length
        = PuzzleGen.witnessConfig.gridSize.rows.toNat * PuzzleGen.witnessConfig.gridSize.cols.toNat
    ∧ (PuzzleGen.generatePuzzle PuzzleGen.witnessConfig (fun _ _ => 0) (fun _ _ => 0)
        (fun _ _ => true) (fun _ _ => true) id).slots.length
        = PuzzleGen.witnessConfig.gridSize.rows.toNat * PuzzleGen.witnessConfig.gridSize.cols.toNat
    ∧ ((PuzzleGen.generatePuzzle PuzzleGen.witnessConfig (fun _ _ => 0) (fun _ _ => 0)
        (fun _ _ => true) (fun _ _ => true) id).pieces.map PuzzleGen.Piece.id).Perm
        ((PuzzleGen.generatePuzzle PuzzleGen.witnessConfig (fun _ _ => 0) (fun _ _ => 0)
          (fun _ _ => true) (fun _ _ => true) id).slots.map PuzzleGen.Slot.id)
    ∧ (PuzzleGen.generatePuzzle PuzzleGen.witnessConfig (fun _ _ => 0) (fun _ _ => 0)
        (fun _ _ => true) (fun _ _ => true) id).pieces.Perm
        (PuzzleGen.rowMajorPieces PuzzleGen.witnessConfig (fun _ _ => 0) (fun _ _ => 0)
          (fun _ _ => true) (fun _ _ => true))
    ∧ (PuzzleGen.generatePuzzle PuzzleGen.witnessConfig (fun _ _ => 0) (fun _ _ => 0)
        (fun _ _ => true) (fun _ _ => true) id).slots
        = PuzzleGen.rowMajor PuzzleGen.witnessConfig.gridSize.rows.toNat
            PuzzleGen.witnessConfig.gridSize.cols.toNat
            (PuzzleGen.mkSlot PuzzleGen.witnessConfig) :=
  C7_cardinality_and_id_bijection PuzzleGen.witnessConfig (fun _ _ => 0) (fun _ _ => 0)
    (fun _ _ => true) (fun _ _ => true) id (fun l => List.Perm.refl l)

/-- Configuration exhibiting the scatter-containment failure of C8: 1×1
grid, 100×100 viewport, margin 0 (so the piece is 100 px, the board is
100 px tall, and the spawn area starts at y = 150, below the viewport). -/
def badScatterConfig : PuzzleGen.PuzzleConfig :=
  { gridSize := { rows := 1, cols := 1 }
    image := { uri := "img", width := 100, height := 100 }
    screenWidth := 100
    screenHeight := 100
    boardMargin := 0 }

/-- C8 fails on the code: with `badScatterConfig` and scatter draws 0, the
generated piece has `initialY = 150` while the piece size is 100 and the
viewport is 100 tall, so `initialY + pieceSizeOnScreen = 250 > 100` — the
spawn-range length `screenHeight - spawnAreaY - pieceSizeOnScreen` is
negative and `generatePuzzle` samples it anyway, violating the claimed
containment for this configuration. -/
theorem C8_scatter_containment_code_bug :
    PuzzleGen.pieceSizeOnScreen badScatterConfig = 100
    ∧ badScatterConfig.screenHeight = 100
    ∧ (PuzzleGen.mkPiece badScatterConfig (fun _ _ => 0) (fun _ _ => 0)
        (fun _ _ => true) (fun _ _ => true) 0 0).initialY = 150
    ∧ ¬ ((PuzzleGen.mkPiece badScatterConfig (fun _ _ => 0) (fun _ _ => 0)
          (fun _ _ => true) (fun _ _ => true) 0 0).initialY
        + PuzzleGen.pieceSizeOnScreen badScatterConfig ≤ badScatterConfig.screenHeight) := by
  have hps : PuzzleGen.pieceSizeOnScreen badScatterConfig = 100 := by
    unfold PuzzleGen.pieceSizeOnScreen PuzzleGen.availableWidth badScatterConfig
    norm_num
  have hbH : PuzzleGen.boardHeight badScatterConfig = 100 := by
    unfold PuzzleGen.boardHeight
    rw [hps]
    norm_num [badScatterConfig]
  have hy : (PuzzleGen.mkPiece badScatterConfig (fun _ _ => 0) (fun _ _ => 0)
      (fun _ _ => true) (fun _ _ => true) 0 0).initialY = 150 := by
    show PuzzleGen.spawnAreaY badScatterConfig
        + 0 * (badScatterConfig.screenHeight - PuzzleGen.spawnAreaY badScatterConfig
          - PuzzleGen.pieceSizeOnScreen badScatterConfig) = 150
    unfold PuzzleGen.spawnAreaY
    rw [hbH]
    norm_num [badScatterConfig]
  refine ⟨hps, rfl, hy, ?_⟩
  rw [hy, hps]
  norm_num [badScatterConfig]

/-- Invalid configuration for C9: `rows = -2 ≤ 0`. -/
def invalidGridConfig : PuzzleGen.PuzzleConfig :=
  { gridSize := { rows := -2, cols := 3 }
    image := { uri := "img", width := 300, height := 200 }
    screenWidth := 320
    screenHeight := 640
    boardMargin := 10 }

/-- C9 fails on the code: `generatePuzzle` performs no input validation.
For `rows = -2` (non-positive) both loops run zero times and it still
returns a `PuzzleData` value — with empty piece and slot lists and the
echoed image — instead of rejecting with a configuration error.  (With
`cols ≤ 0` the piece-size divisions in JS additionally yield `Infinity`
rather than an error.) -/
theorem C9_no_rejection_code_bug :
    (PuzzleGen.generatePuzzle invalidGridConfig (fun _ _ => 0) (fun _ _ => 0)
        (fun _ _ => true) (fun _ _ => true) id).pieces = []
    ∧ (PuzzleGen.generatePuzzle invalidGridConfig (fun _ _ => 0) (fun _ _ => 0)
        (fun _ _ => true) (fun _ _ => true) id).slots = []
    ∧ (PuzzleGen.generatePuzzle invalidGridConfig (fun _ _ => 0) (fun _ _ => 0)
        (fun _ _ => true) (fun _ _ => true) id).image = invalidGridConfig.image := by
  refine ⟨?_, ?_, rfl⟩ <;>
    simp [PuzzleGen.generatePuzzle, PuzzleGen.rowMajorPieces, PuzzleGen.rowMajor,
      invalidGridConfig, show ((-2 : ℤ)).toNat = 0 from rfl]

/-- C10: each generated piece's `svgClipPath` outline is built with
`pieceSizeInImage` — the floored source-image piece size
`⌊image.width / cols⌋` — as its linear dimension, not `pieceSizeOnScreen`,
so the outline is in source-image pixel scale matching the
`sourceX`/`sourceY` crop origin, while slots use the separate on-screen
scale. -/
theorem C10_clip_path_in_image_scale (cfg : PuzzleGen.PuzzleConfig)
    (rndX rndY : Nat → Nat → ℚ) (rndR rndB : Nat → Nat → Bool)
    (shuffle : List PuzzleGen.Piece → List PuzzleGen.Piece) (r c : Nat)
    (hr : r < cfg.gridSize.rows.toNat) (hc : c < cfg.gridSize.cols.toNat) :
    (PuzzleGen.generatePuzzle cfg rndX rndY rndR rndB shuffle).pieces
        = shuffle (PuzzleGen.rowMajorPieces cfg rndX rndY rndR rndB)
    ∧ (PuzzleGen.rowMajorPieces cfg rndX rndY rndR rndB)[r * cfg.gridSize.cols.toNat + c]?
        = some (PuzzleGen.mkPiece cfg rndX rndY rndR rndB r c)
    ∧ (PuzzleGen.mkPiece cfg rndX rndY rndR rndB r c).svgClipPath
        = PuzzleGen.buildPiecePath
            (PuzzleGen.pieceShape cfg.gridSize.rows.toNat cfg.gridSize.cols.toNat rndR rndB r c)
            (PuzzleGen.pieceSizeInImage cfg)
    ∧ PuzzleGen.pieceSizeInImage cfg
        = ((⌊cfg.image.width / (cfg.gridSize.cols : ℚ)⌋ : ℤ) : ℚ)
    ∧ (PuzzleGen.mkPiece cfg rndX rndY rndR rndB r c).sourceX
        = (c : ℚ) * PuzzleGen.pieceSizeInImage cfg
    ∧ (PuzzleGen.mkSlot cfg r c).x = (c : ℚ) * PuzzleGen.pieceSizeOnScreen cfg
    ∧ (PuzzleGen.generatePuzzle cfg rndX rndY rndR rndB shuffle).pieceSizeInImage
        = PuzzleGen.pieceSizeInImage cfg
    ∧ (PuzzleGen.generatePuzzle cfg rndX rndY rndR rndB shuffle).pieceSize
        = PuzzleGen.pieceSizeOnScreen cfg :=
  ⟨rfl, PuzzleGen.rowMajor_get _ _ _ r c hr hc, rfl, rfl, rfl, rfl, rfl, rfl⟩

/-- Witness for C10 at the concrete witness configuration, cell (0,1). -/
theorem C10_clip_path_in_image_scale_witness :
    (PuzzleGen.generatePuzzle PuzzleGen.witnessConfig (fun _ _ => 0) (fun _ _ => 0)
        (fun _ _ => true) (fun _ _ => true) id).pieces
        = id (PuzzleGen.rowMajorPieces PuzzleGen.witnessConfig (fun _ _ => 0) (fun _ _ => 0)
            (fun _ _ => true) (fun _ _ => true))
    ∧ (PuzzleGen.rowMajorPieces PuzzleGen.witnessConfig (fun _ _ => 0) (fun _ _ => 0)
        (fun _ _ => true) (fun _ _ => true))[0 * PuzzleGen.witnessConfig.gridSize.cols.toNat + 1]?
        = some (PuzzleGen.mkPiece PuzzleGen.witnessConfig (fun _ _ => 0) (fun _ _ => 0)
            (fun _ _ => true) (fun _ _ => true) 0 1)
    ∧ (PuzzleGen.mkPiece PuzzleGen.witnessConfig (fun _ _ => 0) (fun _ _ => 0)
        (fun _ _ => true) (fun _ _ => true) 0 1).svgClipPath
        = PuzzleGen.buildPiecePath
            (PuzzleGen.pieceShape PuzzleGen.witnessConfig.gridSize.rows.toNat
              PuzzleGen.witnessConfig.gridSize.cols.toNat (fun _ _ => true) (fun _ _ => true) 0 1)
            (PuzzleGen.pieceSizeInImage PuzzleGen.witnessConfig)
    ∧ PuzzleGen.pieceSizeInImage PuzzleGen.witnessConfig
        = ((⌊PuzzleGen.witnessConfig.image.width / (PuzzleGen.witnessConfig.gridSize.cols : ℚ)⌋ : ℤ) : ℚ)
    ∧ (PuzzleGen.mkPiece PuzzleGen.witnessConfig (fun _ _ => 0) (fun _ _ => 0)
        (fun _ _ => true) (fun _ _ => true) 0 1).sourceX
        = (1 : ℚ) * PuzzleGen.pieceSizeInImage PuzzleGen.witnessConfig
    ∧ (PuzzleGen.mkSlot PuzzleGen.witnessConfig 0 1).x
        = (1 : ℚ) * PuzzleGen.pieceSizeOnScreen PuzzleGen.witnessConfig
    ∧ (PuzzleGen.generatePuzzle PuzzleGen.witnessConfig (fun _ _ => 0) (fun _ _ => 0)
        (fun _ _ => true) (fun _ _ => true) id).pieceSizeInImage
        = PuzzleGen.pieceSizeInImage PuzzleGen.witnessConfig
    ∧ (PuzzleGen.generatePuzzle PuzzleGen.witnessConfig (fun _ _ => 0) (fun _ _ => 0)
        (fun _ _ => true) (fun _ _ => true) id).pieceSize
        = PuzzleGen.pieceSizeOnScreen PuzzleGen.witnessConfig :=
  C10_clip_path_in_image_scale PuzzleGen.witnessConfig (fun _ _ => 0) (fun _ _ => 0)
    (fun _ _ => true) (fun _ _ => true) id 0 1 (by decide) (by decide)

/-- Supporting result: under the spec's input constraints (non-negative
margin fitting the viewport, at least one column, `Math.random()` draws in
`[0, 1]`) and a viewport tall enough for the spawn region
(`spawnAreaY + pieceSizeOnScreen ≤ screenHeight`), the scatter position of
every generated piece does satisfy the containment described by C8.
`C8_scatter_containment_code_bug` shows the unguarded statement fails. -/
theorem scatter_containment_of_viewport_fits (cfg : PuzzleGen.PuzzleConfig)
    (rndX rndY : Nat → Nat → ℚ) (rndR rndB : Nat → Nat → Bool) (r c : Nat)
    (hM : 0 ≤ cfg.boardMargin) (hcols : 1 ≤ cfg.gridSize.cols)
    (hW : cfg.boardMargin * 2 ≤ cfg.screenWidth)
    (hx0 : 0 ≤ rndX r c) (hx1 : rndX r c ≤ 1)
    (hy0 : 0 ≤ rndY r c) (hy1 : rndY r c ≤ 1)
    (hH : PuzzleGen.spawnAreaY cfg + PuzzleGen.pieceSizeOnScreen cfg ≤ cfg.screenHeight) :
    0 ≤ (PuzzleGen.mkPiece cfg rndX rndY rndR rndB r c).initialX
    ∧ (PuzzleGen.mkPiece cfg rndX rndY rndR rndB r c).initialX
        + PuzzleGen.pieceSizeOnScreen cfg ≤ cfg.screenWidth
    ∧ cfg.boardMargin + PuzzleGen.boardHeight cfg
        ≤ (PuzzleGen.mkPiece cfg rndX rndY rndR rndB r c).initialY
    ∧ (PuzzleGen.mkPiece cfg rndX rndY rndR rndB r c).initialY
        + PuzzleGen.pieceSizeOnScreen cfg ≤ cfg.screenHeight := by
  have haw : 0 ≤ PuzzleGen.availableWidth cfg := by
    unfold PuzzleGen.availableWidth
    linarith
  have hcq : (1 : ℚ) ≤ (cfg.gridSize.cols : ℚ) := by exact_mod_cast hcols
  have hps0 : 0 ≤ PuzzleGen.pieceSizeOnScreen cfg := by
    unfold PuzzleGen.pieceSizeOnScreen
    have h0 : (0 : ℤ) ≤ ⌊PuzzleGen.availableWidth cfg / (cfg.gridSize.cols : ℚ)⌋ :=
      Int.floor_nonneg.mpr (div_nonneg haw (by linarith))
    exact_mod_cast h0
  have hps_le : PuzzleGen.pieceSizeOnScreen cfg ≤ PuzzleGen.availableWidth cfg := by
    unfold PuzzleGen.pieceSizeOnScreen
    calc ((⌊PuzzleGen.availableWidth cfg / (cfg.gridSize.cols : ℚ)⌋ : ℤ) : ℚ)
        ≤ PuzzleGen.availableWidth cfg / (cfg.gridSize.cols : ℚ) := Int.floor_le _
      _ ≤ PuzzleGen.availableWidth cfg := div_le_self haw hcq
  have hWp : PuzzleGen.pieceSizeOnScreen cfg ≤ cfg.screenWidth := by
    unfold PuzzleGen.availableWidth at hps_le
    linarith
  refine ⟨?_, ?_, ?_, ?_⟩
  · show 0 ≤ rndX r c * (cfg.screenWidth - PuzzleGen.pieceSizeOnScreen cfg)
    exact mul_nonneg hx0 (by linarith)
  · show rndX r c * (cfg.screenWidth - PuzzleGen.pieceSizeOnScreen cfg)
        + PuzzleGen.pieceSizeOnScreen cfg ≤ cfg.screenWidth
    have hx := mul_le_of_le_one_left
      (show (0 : ℚ) ≤ cfg.screenWidth - PuzzleGen.pieceSizeOnScreen cfg by linarith) hx1
    linarith
  · show cfg.boardMargin + PuzzleGen.boardHeight cfg
        ≤ PuzzleGen.spawnAreaY cfg
          + rndY r c * (cfg.screenHeight - PuzzleGen.spawnAreaY cfg
            - PuzzleGen.pieceSizeOnScreen cfg)
    have hy := mul_nonneg hy0
      (show (0 : ℚ) ≤ cfg.screenHeight - PuzzleGen.spawnAreaY cfg
          - PuzzleGen.pieceSizeOnScreen cfg by linarith)
    have hS : cfg.boardMargin + PuzzleGen.boardHeight cfg ≤ PuzzleGen.spawnAreaY cfg := by
      unfold PuzzleGen.spawnAreaY
      linarith
    linarith
  · show PuzzleGen.spawnAreaY cfg
        + rndY r c * (cfg.screenHeight - PuzzleGen.spawnAreaY cfg
          - PuzzleGen.pieceSizeOnScreen cfg)
        + PuzzleGen.pieceSizeOnScreen cfg ≤ cfg.screenHeight
    have hy := mul_le_of_le_one_left
      (show (0 : ℚ) ≤ cfg.screenHeight - PuzzleGen.spawnAreaY cfg
          - PuzzleGen.pieceSizeOnScreen cfg by linarith) hy1
    linarith
